import Mathlib

/-
Verification of the Binance perpetual-futures monitoring engine.

Shallow embedding of the monitoring/retention/scheduling core:
  - per-instrument time series rows (CSV rows) as lists of `Snapshot`
  - rolling statistics (`calculate_oi_ratio`) from monitor.py and
    binance_monitor_auto.py
  - the market-cap tiered alert policy (`check_conditions`) from
    binance_monitor_auto.py
  - period deltas (`analyze_changes`) and extremes ranking
    (`find_extreme_changes`) from data_analyzer.py
  - retention compaction (`compact`) from
    AutoMonitorSystem.cleanup_old_data in binance_monitor_auto.py
  - startup/cold-start behaviour of AutoMonitorSystem.run and the
    process counters of AutoMonitorSystem.monitoring_job
  - snapshot building with defaulted fields
    (BinanceDataCollector.get_data_snapshot).

Numbers are modelled as rationals.  Where the Python code performs an
unguarded float division whose denominator may be zero, the IEEE-754
outcome (infinity or NaN, never a finite number) is modelled explicitly
by the type `PctVal`.
-/

namespace BinanceMonitor

/-- One row of a per-instrument CSV series, with the full column set
written by data_collector.py (the columns used by binance_monitor_auto.py
are a subset).  Loaded series are sorted by timestamp; the analyses below
only use the ordering of the list. -/
structure Snapshot where
  timestamp : ℚ
  mark_price : ℚ
  index_price : ℚ
  basis : ℚ
  basis_percent : ℚ
  last_funding_rate : ℚ
  next_funding_time : ℤ
  oi : ℚ
  long_short_account_ratio : ℚ
  top_trader_account_ls_ratio : ℚ
  top_trader_position_ls_ratio : ℚ
  taker_buy_sell_ratio : ℚ
deriving DecidableEq, Repr

/-- Arithmetic mean of a list of rationals, as pandas Series.mean on a
nonempty column (on an empty list this yields 0/0 = 0 in ℚ; the callers
below never take the mean of an empty slice). -/
def mean (xs : List ℚ) : ℚ := xs.sum / xs.length

/-- pandas DataFrame.tail(n): the last n rows of the frame (all rows when
the frame has at most n rows). -/
def tailN (n : ℕ) (xs : List α) : List α := xs.drop (xs.length - n)

/-- The monitoring thresholds of the Config class in
binance_monitor_auto.py. -/
structure Config where
  FUNDING_RATE_THRESHOLD : ℚ
  OI_RATIO_THRESHOLD : ℚ
  MARKET_CAP_THRESHOLD : ℚ
deriving DecidableEq, Repr

/-- Default thresholds from Config.__init__ (env defaults 0.001, 2.0,
100000000). -/
def defaultConfig : Config :=
  { FUNDING_RATE_THRESHOLD := 1/1000
    OI_RATIO_THRESHOLD := 2
    MARKET_CAP_THRESHOLD := 100000000 }

/-- Monitor.calculate_oi_ratio (binance_monitor_auto.py lines 404-422),
identical to FundingOIMonitor.calculate_oi_ratio (monitor.py lines
39-65): mean of the oi column over the last 3 rows divided by the mean
over the last 10 rows; None when fewer than 10 rows or when the 10-row
mean is zero. -/
def calculate_oi_ratio (df : List Snapshot) : Option ℚ :=
  if df.length < 10 then none
  else
    let recent_data := tailN 10 df
    let recent_3_avg := mean ((tailN 3 recent_data).map Snapshot.oi)
    let recent_10_avg := mean (recent_data.map Snapshot.oi)
    if recent_10_avg = 0 then none
    else some (recent_3_avg / recent_10_avg)

/-- The tuple returned by Monitor.check_conditions
(binance_monitor_auto.py): (condition_met, funding_rate, oi_ratio,
current_oi, market_cap). -/
structure CheckResult where
  condition_met : Bool
  funding_rate : Option ℚ
  oi_ratio : Option ℚ
  current_oi : Option ℚ
  market_cap : Option ℚ
deriving DecidableEq, Repr

/-- Monitor.check_conditions (binance_monitor_auto.py lines 424-469).
The market cap comes from the external market-cap source (None when
unknown); the series df is the loaded per-instrument history.  When the
series is empty (or the file is missing) the result is (False, None,
None, None, market_cap).  Small-cap / unknown-cap instruments trigger on
the funding condition alone with oi_ratio left None; large-cap
instruments additionally require a computable OI ratio above the
threshold. -/
def check_conditions (cfg : Config) (market_cap : Option ℚ)
    (df : List Snapshot) : CheckResult :=
  match df.getLast? with
  | none => ⟨false, none, none, none, market_cap⟩
  | some latest =>
    let funding_rate := latest.last_funding_rate
    let current_oi := latest.oi
    let funding_condition : Bool :=
      decide (|funding_rate| > cfg.FUNDING_RATE_THRESHOLD)
    if market_cap.elim true (fun mc => decide (mc < cfg.MARKET_CAP_THRESHOLD)) then
      ⟨funding_condition, some funding_rate, none, some current_oi, market_cap⟩
    else
      if df.length < 10 then
        ⟨false, some funding_rate, none, some current_oi, market_cap⟩
      else
        match calculate_oi_ratio df with
        | none => ⟨false, some funding_rate, none, some current_oi, market_cap⟩
        | some r =>
          ⟨funding_condition && decide (r > cfg.OI_RATIO_THRESHOLD),
            some funding_rate, some r, some current_oi, market_cap⟩

/-- A snapshot row holding only an open-interest reading (all other
columns zero); calculate_oi_ratio reads only the oi column. -/
def oiRow (q : ℚ) : Snapshot :=
  { timestamp := 0, mark_price := 0, index_price := 0, basis := 0
    basis_percent := 0, last_funding_rate := 0, next_funding_time := 0
    oi := q, long_short_account_ratio := 0
    top_trader_account_ls_ratio := 0, top_trader_position_ls_ratio := 0
    taker_buy_sell_ratio := 0 }

/-- The end-to-end example series of the specification: open-interest
values 100 seven times followed by 400 three times. -/
def exampleSeries : List Snapshot :=
  (List.replicate 7 (100 : ℚ) ++ List.replicate 3 400).map oiRow

/-- The value of an unguarded float percentage computation: a finite
value, or the IEEE-754 outcome of dividing by zero (positive or negative
infinity, or NaN for 0/0). -/
inductive PctVal where
  | fin (q : ℚ)
  | posInf
  | negInf
  | nan
deriving DecidableEq, Repr

/-- The float computation ((num / denom) * 100) as written in
DataAnalyzer.analyze_changes for mark_price_change_pct: no guard on the
denominator, so a zero denominator produces infinity or NaN exactly as
numpy float division does. -/
def pct (num denom : ℚ) : PctVal :=
  if denom ≠ 0 then .fin (num / denom * 100)
  else if num > 0 then .posInf
  else if num < 0 then .negInf
  else .nan

/-- The change record built by DataAnalyzer.analyze_changes
(data_analyzer.py lines 37-77): one entry per dict key of the Python
result (the two timestamps are carried as rationals). -/
structure Changes where
  symbol : String
  period_hours : ℚ
  data_points : ℕ
  mark_price_change : ℚ
  mark_price_change_pct : PctVal
  basis_change : ℚ
  basis_percent_change : ℚ
  funding_rate_change : ℚ
  oi_change : ℚ
  oi_change_pct : ℚ
  account_ratio_change : ℚ
  taker_ratio_change : ℚ
  latest_timestamp : ℚ
  oldest_timestamp : ℚ
deriving DecidableEq, Repr

/-- The window filter of analyze_changes: rows with timestamp at least
now minus the lookback window (the cutoff datetime.now() -
timedelta(hours=hours), with time measured in hours). -/
def windowFilter (now hours : ℚ) (df : List Snapshot) : List Snapshot :=
  df.filter (fun s => decide (s.timestamp ≥ now - hours))

/-- DataAnalyzer.analyze_changes (data_analyzer.py lines 37-77).
Returns none (the Python error dict) when the series, or the filtered
window, has fewer than 2 rows.  oldest and latest are the first and last
rows of the filtered window.  The mark-price percentage divides by the
oldest mark price with no guard (PctVal captures the float outcome);
the open-interest percentage is guarded to 0 when the oldest oi is 0. -/
def analyze_changes (symbol : String) (now hours : ℚ)
    (df : List Snapshot) : Option Changes :=
  if df.length < 2 then none
  else
    let recent_data := windowFilter now hours df
    if recent_data.length < 2 then none
    else
      match recent_data.head?, recent_data.getLast? with
      | some oldest, some latest =>
        some
          { symbol := symbol
            period_hours := hours
            data_points := recent_data.length
            mark_price_change := latest.mark_price - oldest.mark_price
            mark_price_change_pct :=
              pct (latest.mark_price - oldest.mark_price) oldest.mark_price
            basis_change := latest.basis - oldest.basis
            basis_percent_change := latest.basis_percent - oldest.basis_percent
            funding_rate_change :=
              latest.last_funding_rate - oldest.last_funding_rate
            oi_change := latest.oi - oldest.oi
            oi_change_pct :=
              if oldest.oi ≠ 0 then (latest.oi - oldest.oi) / oldest.oi * 100
              else 0
            account_ratio_change :=
              latest.long_short_account_ratio - oldest.long_short_account_ratio
            taker_ratio_change :=
              latest.taker_buy_sell_ratio - oldest.taker_buy_sell_ratio
            latest_timestamp := latest.timestamp
            oldest_timestamp := oldest.timestamp }
      | _, _ => none

/-- The per-file compaction step of AutoMonitorSystem.cleanup_old_data
(binance_monitor_auto.py lines 556-602): a series of at most 1000 rows
is skipped untouched; a longer one is replaced by its last 1000 rows
(df.tail(1000)) and the number of removed rows is reported. -/
def compact (df : List Snapshot) : List Snapshot × ℕ :=
  if df.length ≤ 1000 then (df, 0)
  else
    let df_cleaned := tailN 1000 df
    (df_cleaned, df.length - df_cleaned.length)

/-- The Telegram credential fields of the Config class
(binance_monitor_auto.py): os.getenv with default means a missing
environment variable is stored as the empty string. -/
structure TelegramConfig where
  TELEGRAM_BOT_TOKEN : String
  TELEGRAM_CHAT_ID : String
deriving DecidableEq, Repr

/-- Config.validate_telegram_config (binance_monitor_auto.py lines
52-60): false when either credential is empty (falsy). -/
def validate_telegram_config (cfg : TelegramConfig) : Bool :=
  if cfg.TELEGRAM_BOT_TOKEN = "" then false
  else if cfg.TELEGRAM_CHAT_ID = "" then false
  else true

/-- The two jobs registered by AutoMonitorSystem.setup_schedule:
collection_job every 5 minutes (it runs monitoring_job inline at the
end) and status_report_job every 30 minutes. -/
inductive JobKind where
  | collection
  | statusReport
deriving DecidableEq, Repr

/-- The observable actions of AutoMonitorSystem.run before it enters
the main loop. -/
inductive StartupAction where
  | startupNotification
  | register (j : JobKind)
  | runJob (j : JobKind)
deriving DecidableEq, Repr

/-- The jobs registered by AutoMonitorSystem.setup_schedule
(binance_monitor_auto.py lines 721-732). -/
def registered_jobs : List JobKind := [.collection, .statusReport]

/-- The startup trace of AutoMonitorSystem.run (binance_monitor_auto.py
lines 734-776) up to entering the main loop: when
validate_telegram_config fails the method returns at once (no
notification, no registration, no job run); otherwise it sends the
startup notification, registers both jobs via setup_schedule, and runs
collection_job once immediately.  status_report_job is not run before
the loop. -/
def run_startup (cfg : TelegramConfig) : List StartupAction :=
  if validate_telegram_config cfg = false then []
  else
    [.startupNotification, .register .collection, .register .statusReport,
      .runJob .collection]

/-- Python truthiness of an optional string: None and the empty string
are falsy. -/
def isTruthy : Option String → Bool
  | none => false
  | some s => !(s = "")

/-- TelegramBot.__init__ (telegram_bot.py lines 14-27): each credential
is the constructor argument when truthy, else the environment value;
a ValueError is raised when either resolved credential is falsy. -/
def telegram_bot_init (bot_token chat_id env_token env_chat : Option String) :
    Except String (Option String × Option String) :=
  let tok := if isTruthy bot_token then bot_token else env_token
  let cid := if isTruthy chat_id then chat_id else env_chat
  if !isTruthy tok || !isTruthy cid then
    .error "TELEGRAM_BOT_TOKEN and TELEGRAM_CHAT_ID required"
  else
    .ok (tok, cid)

/-- The premiumIndex response used by get_data_snapshot: a JSON dict
that may omit either price key, or be absent entirely when the fetch
failed. -/
structure MarkPriceResp where
  markPrice : Option ℚ
  indexPrice : Option ℚ
deriving DecidableEq, Repr

/-- The fundingRate response: may omit either key. -/
structure FundingResp where
  fundingRate : Option ℚ
  fundingTime : Option ℤ
deriving DecidableEq, Repr

/-- The openInterest response: may omit the key. -/
structure OpenInterestResp where
  openInterest : Option ℚ
deriving DecidableEq, Repr

/-- The snapshot dict compiled by BinanceDataCollector.get_data_snapshot
(binance_monitor_auto.py lines 276-306). -/
structure SnapshotDict where
  symbol : String
  timestamp : ℚ
  mark_price : ℚ
  index_price : ℚ
  basis : ℚ
  basis_percent : ℚ
  last_funding_rate : ℚ
  next_funding_time : ℤ
  oi : ℚ
deriving DecidableEq, Repr

/-- BinanceDataCollector.get_data_snapshot (binance_monitor_auto.py
lines 276-306): every numeric field is dict.get(key, 0) when the fetch
returned a dict, and 0 when the fetch failed (empty dict); basis_percent
is guarded to 0 when the index price is 0. -/
def get_data_snapshot (symbol : String) (now : ℚ)
    (mark_data : Option MarkPriceResp) (funding_data : Option FundingResp)
    (oi_data : Option OpenInterestResp) : SnapshotDict :=
  let mark_price := match mark_data with
    | some m => m.markPrice.getD 0
    | none => 0
  let index_price := match mark_data with
    | some m => m.indexPrice.getD 0
    | none => 0
  let basis := mark_price - index_price
  let basis_percent := if index_price ≠ 0 then basis / index_price * 100 else 0
  { symbol := symbol
    timestamp := now
    mark_price := mark_price
    index_price := index_price
    basis := basis
    basis_percent := basis_percent
    last_funding_rate := match funding_data with
      | some f => f.fundingRate.getD 0
      | none => 0
    next_funding_time := match funding_data with
      | some f => f.fundingTime.getD 0
      | none => 0
    oi := match oi_data with
      | some o => o.openInterest.getD 0
      | none => 0 }

/-- An alert dict produced by Monitor.monitor_all_symbols, paired below
with the boolean result of its Telegram delivery (the delivery result is
printed and otherwise ignored). -/
structure Alert where
  symbol : String
  funding_rate : Option ℚ
  oi_ratio : Option ℚ
  current_oi : Option ℚ
  market_cap : Option ℚ
deriving DecidableEq, Repr

/-- The process-wide counters of AutoMonitorSystem (the MonitorState of
the specification): cumulative collection successes/errors and alerts
found/sent. -/
structure MonitorStats where
  collection_success_total : ℕ
  collection_errors_total : ℕ
  alerts_found_total : ℕ
  alerts_sent_total : ℕ
deriving DecidableEq, Repr

/-- Counter values at process start (AutoMonitorSystem.__init__). -/
def initialStats : MonitorStats :=
  { collection_success_total := 0, collection_errors_total := 0
    alerts_found_total := 0, alerts_sent_total := 0 }

/-- The counter updates of AutoMonitorSystem.monitoring_job
(binance_monitor_auto.py lines 688-703): when monitor_all_symbols
returns a list of alerts (each already delivered or not, result
ignored), both alert counters grow by the list length; when it raises,
the exception is caught and no counter changes. -/
def monitoring_job_step (s : MonitorStats)
    (outcome : Option (List (Alert × Bool))) : MonitorStats :=
  match outcome with
  | none => s
  | some alerts =>
    { s with
      alerts_found_total := s.alerts_found_total + alerts.length
      alerts_sent_total := s.alerts_sent_total + alerts.length }

/-- The counter updates of AutoMonitorSystem.collection_job
(binance_monitor_auto.py lines 670-686): collection success and error
totals grow by the per-cycle counts. -/
def collection_job_step (s : MonitorStats) (success errors : ℕ) : MonitorStats :=
  { s with
    collection_success_total := s.collection_success_total + success
    collection_errors_total := s.collection_errors_total + errors }

/-- One scheduler-driven counter event of the running system:
a monitoring pass, a collection pass, or a status report (which reads
the counters and changes nothing). -/
inductive SystemEvent where
  | monitoring (outcome : Option (List (Alert × Bool)))
  | collection (success errors : ℕ)
  | statusReport
deriving Repr

/-- The effect of one event on the counters. -/
def applyEvent (s : MonitorStats) : SystemEvent → MonitorStats
  | .monitoring o => monitoring_job_step s o
  | .collection su er => collection_job_step s su er
  | .statusReport => s

/-- Counter state after a sequence of events from a starting state. -/
def runEvents (s : MonitorStats) (evs : List SystemEvent) : MonitorStats :=
  evs.foldl applyEvent s

/-- A snapshot row with a timestamp, mark price, open interest and
funding rate (the remaining columns zero); used as concrete test data. -/
def row (ts mark oi fr : ℚ) : Snapshot :=
  { timestamp := ts, mark_price := mark, index_price := 0, basis := 0
    basis_percent := 0, last_funding_rate := fr, next_funding_time := 0
    oi := oi, long_short_account_ratio := 0
    top_trader_account_ls_ratio := 0, top_trader_position_ls_ratio := 0
    taker_buy_sell_ratio := 0 }

/-- A 10-row series whose open interest is 100 seven times then 400
three times (OI ratio 40/19), with latest funding rate 0.002. -/
def dfTier : List Snapshot :=
  List.replicate 7 (oiRow 100) ++ [oiRow 400, oiRow 400, row 0 0 400 (2/1000)]

/-- A 2-row series whose oldest row has mark price 0 and open interest
0; exercises the unguarded mark-price percentage division. -/
def dfZeroStart : List Snapshot := [row 0 0 0 0, row 1 1 5 0]

/-- The change record analyze_changes produces on dfZeroStart over a
1-hour window ending at time 1: the open-interest percentage is guarded
to 0, while the mark-price percentage is the unguarded 1/0 = plus
infinity. -/
def cZeroStart : Changes :=
  { symbol := "XUSDT", period_hours := 1, data_points := 2
    mark_price_change := 1, mark_price_change_pct := .posInf
    basis_change := 0, basis_percent_change := 0
    funding_rate_change := 0, oi_change := 5, oi_change_pct := 0
    account_ratio_change := 0, taker_ratio_change := 0
    latest_timestamp := 1, oldest_timestamp := 0 }

/-- Taking the last m rows of the last n rows is taking the last m rows,
when m is at most n (pandas tail composition). -/
theorem tailN_tailN (m n : ℕ) (hmn : m ≤ n) (xs : List α) :
    tailN m (tailN n xs) = tailN m xs := by
  simp only [tailN, List.drop_drop, List.length_drop]
  congr 1
  omega

/-- C1.  Monitor.check_conditions follows the market-cap tiering rule:
with any latest row present, an unknown or small market cap triggers
exactly on the funding-rate condition (OI ratio ignored), while a large
market cap triggers exactly when the funding-rate condition holds and
the OI ratio is computed and exceeds the threshold; with fewer than 10
rows the large-cap path never triggers. -/
theorem check_conditions_tiering (cfg : Config) (mc : Option ℚ)
    (df : List Snapshot) (latest : Snapshot) (hl : df.getLast? = some latest) :
    ((mc = none ∨ ∃ m, mc = some m ∧ m < cfg.MARKET_CAP_THRESHOLD) →
      ((check_conditions cfg mc df).condition_met = true ↔
        cfg.FUNDING_RATE_THRESHOLD < |latest.last_funding_rate|)) ∧
    (∀ m, mc = some m → cfg.MARKET_CAP_THRESHOLD ≤ m →
      (((check_conditions cfg mc df).condition_met = true ↔
        (cfg.FUNDING_RATE_THRESHOLD < |latest.last_funding_rate| ∧
          ∃ q, calculate_oi_ratio df = some q ∧ cfg.OI_RATIO_THRESHOLD < q)) ∧
        (df.length < 10 → (check_conditions cfg mc df).condition_met = false))) := by
  constructor
  · rintro (rfl | ⟨m, rfl, hm⟩)
    · simp [check_conditions, hl]
    · simp [check_conditions, hl, hm]
  · rintro m rfl hm
    have hlt : ¬ m < cfg.MARKET_CAP_THRESHOLD := not_lt.mpr hm
    constructor
    · by_cases h10 : df.length < 10
      · have hnone : calculate_oi_ratio df = none := by
          simp [calculate_oi_ratio, h10]
        simp [check_conditions, hl, hlt, h10, hnone]
      · cases hq : calculate_oi_ratio df with
        | none => simp [check_conditions, hl, hlt, h10, hq]
        | some r =>
          simp [check_conditions, hl, hlt, h10, hq, and_comm]
    · intro h10
      simp [check_conditions, hl, hlt, h10]

/-- C1 witness: on the concrete 10-row series dfTier with funding rate
0.002 and OI ratio 40/19, both a large-cap (200M) and an unknown-cap
instrument trigger under the default thresholds. -/
theorem check_conditions_tiering_witness :
    (check_conditions defaultConfig (some 200000000) dfTier).condition_met = true ∧
    (check_conditions defaultConfig none dfTier).condition_met = true := by
  have hl : dfTier.getLast? = some (row 0 0 400 (2/1000)) := by
    simp [dfTier]
  have hratio : calculate_oi_ratio dfTier = some (40/19) := by
    norm_num [calculate_oi_ratio, dfTier, tailN, mean, oiRow, row, List.replicate]
  have habs : defaultConfig.FUNDING_RATE_THRESHOLD <
      |(row 0 0 400 (2/1000)).last_funding_rate| := by
    simp only [defaultConfig, row]
    rw [abs_of_pos (by norm_num)]
    norm_num
  constructor
  · exact ((check_conditions_tiering defaultConfig (some 200000000) dfTier _
      hl).2 200000000 rfl (by norm_num [defaultConfig])).1.mpr
      ⟨habs, 40/19, hratio, by norm_num [defaultConfig]⟩
  · exact ((check_conditions_tiering defaultConfig none dfTier _ hl).1
      (Or.inl rfl)).mpr habs

/-- C2.  calculate_oi_ratio returns the Insufficient sentinel (None) on
any series shorter than 10 rows and on any series whose 10-row mean of
open interest is zero, and otherwise the quotient of the 3-row mean by
the 10-row mean. -/
theorem calculate_oi_ratio_spec (df : List Snapshot) :
    (df.length < 10 → calculate_oi_ratio df = none) ∧
    (10 ≤ df.length → mean ((tailN 10 df).map Snapshot.oi) = 0 →
      calculate_oi_ratio df = none) ∧
    (10 ≤ df.length → mean ((tailN 10 df).map Snapshot.oi) ≠ 0 →
      calculate_oi_ratio df =
        some (mean ((tailN 3 df).map Snapshot.oi) /
          mean ((tailN 10 df).map Snapshot.oi))) := by
  refine ⟨fun h => by simp [calculate_oi_ratio, h], fun h hz => ?_, fun h hz => ?_⟩
  · have h10 : ¬ df.length < 10 := not_lt.mpr h
    simp [calculate_oi_ratio, h10, hz]
  · have h10 : ¬ df.length < 10 := not_lt.mpr h
    simp only [calculate_oi_ratio, h10, if_false, hz, if_neg hz]
    rw [tailN_tailN 3 10 (by norm_num)]

/-- C2 witness: a 1-row series and an all-zero 10-row series give None,
and the concrete exampleSeries gives the quotient of its window means. -/
theorem calculate_oi_ratio_spec_witness :
    calculate_oi_ratio [oiRow 1] = none ∧
    calculate_oi_ratio (List.replicate 10 (oiRow 0)) = none ∧
    calculate_oi_ratio exampleSeries =
      some (mean ((tailN 3 exampleSeries).map Snapshot.oi) /
        mean ((tailN 10 exampleSeries).map Snapshot.oi)) := by
  refine ⟨(calculate_oi_ratio_spec _).1 (by simp),
    (calculate_oi_ratio_spec _).2.1 (by simp) ?_,
    (calculate_oi_ratio_spec _).2.2 (by simp [exampleSeries]) ?_⟩
  · simp [mean, tailN, oiRow]
  · norm_num [mean, tailN, exampleSeries, oiRow, List.replicate]

/-- C3 counterexample: on the series with open interest 100 seven times
then 400 three times, calculate_oi_ratio is 40/19 = 2.105..., which is
not approximately 2.33 (it differs from 2.33 by more than 0.1). -/
theorem oi_ratio_example_counterexample :
    calculate_oi_ratio exampleSeries = some (40/19) ∧
    1/10 < |(40 : ℚ)/19 - 233/100| := by
  constructor
  · norm_num [calculate_oi_ratio, exampleSeries, tailN, mean, oiRow,
      List.replicate]
  · rw [abs_sub_comm, abs_of_pos (by norm_num)]
    norm_num

/-- C3 amended: on that series calculate_oi_ratio is 40/19 (about 2.105,
namely 400 divided by the 10-row mean 190), and that value exceeds the
default OI-ratio threshold 2.0. -/
theorem oi_ratio_example_amended :
    calculate_oi_ratio exampleSeries = some (40/19) ∧
    defaultConfig.OI_RATIO_THRESHOLD < (40 : ℚ)/19 ∧
    (40 : ℚ)/19 = 400 / mean ((tailN 10 exampleSeries).map Snapshot.oi) := by
  refine ⟨?_, by norm_num [defaultConfig], ?_⟩
  · norm_num [calculate_oi_ratio, exampleSeries, tailN, mean, oiRow,
      List.replicate]
  · norm_num [mean, tailN, exampleSeries, oiRow, List.replicate]

/-- An unguarded percentage with zero denominator is never finite: the
float outcome is infinity or NaN. -/
theorem pct_zero_denom_ne_fin (num q : ℚ) : pct num 0 ≠ PctVal.fin q := by
  simp only [pct, ne_eq]
  norm_num
  split
  · simp
  · split <;> simp

/-- C4 counterexample: on dfZeroStart (oldest mark price 0, latest 1)
the mark-price percentage of analyze_changes is plus infinity, not the
guarded 0 the claim asserts for a zero denominator. -/
theorem analyze_changes_guard_counterexample :
    (analyze_changes "XUSDT" 1 1 dfZeroStart).map Changes.mark_price_change_pct =
      some PctVal.posInf ∧
    (windowFilter 1 1 dfZeroStart).head?.map Snapshot.mark_price = some 0 ∧
    PctVal.posInf ≠ PctVal.fin 0 := by
  refine ⟨?_, ?_, by simp⟩
  · norm_num [analyze_changes, windowFilter, dfZeroStart, row, pct]
  · norm_num [windowFilter, dfZeroStart, row]

/-- C4 amended: analyze_changes returns the error result whenever fewer
than 2 rows fall in the window; for a produced record, the open-interest
percentage is guarded to 0 when the oldest open interest in the window
is 0, but the mark-price percentage is unguarded: with oldest mark price
0 it is never a finite value (it is infinity or NaN). -/
theorem analyze_changes_amended (symbol : String) (now hours : ℚ)
    (df : List Snapshot) :
    ((windowFilter now hours df).length < 2 →
      analyze_changes symbol now hours df = none) ∧
    (∀ c oldest, analyze_changes symbol now hours df = some c →
      (windowFilter now hours df).head? = some oldest →
      (oldest.oi = 0 → c.oi_change_pct = 0) ∧
      (oldest.mark_price = 0 → ∀ q, c.mark_price_change_pct ≠ PctVal.fin q)) := by
  constructor
  · intro h
    by_cases h2 : df.length < 2
    · simp [analyze_changes, h2]
    · simp [analyze_changes, h2, h]
  · intro c oldest hc hh
    by_cases h2 : df.length < 2
    · simp [analyze_changes, h2] at hc
    · by_cases hw : (windowFilter now hours df).length < 2
      · simp [analyze_changes, h2, hw] at hc
      · obtain ⟨latest, hlast⟩ :
            ∃ l, (windowFilter now hours df).getLast? = some l := by
          cases hwf : (windowFilter now hours df).getLast? with
          | none =>
            rw [List.getLast?_eq_none_iff] at hwf
            rw [hwf] at hw
            simp at hw
          | some l => exact ⟨l, rfl⟩
        simp only [analyze_changes, h2, if_false, hw, hh, hlast] at hc
        constructor
        · intro hoi
          rw [← Option.some_inj.mp hc]
          simp [hoi]
        · intro hmp q
          rw [← Option.some_inj.mp hc]
          simpa only [hmp] using pct_zero_denom_ne_fin
            (latest.mark_price - oldest.mark_price) q

/-- C4 witness: on dfZeroStart the guarded open-interest percentage is
0 and the unguarded mark-price percentage is not the finite value 0. -/
theorem analyze_changes_amended_witness :
    cZeroStart.oi_change_pct = 0 ∧
    cZeroStart.mark_price_change_pct ≠ PctVal.fin 0 := by
  have hc : analyze_changes "XUSDT" 1 1 dfZeroStart = some cZeroStart := by
    norm_num [analyze_changes, windowFilter, dfZeroStart, row, pct, cZeroStart]
  have hh : (windowFilter 1 1 dfZeroStart).head? = some (row 0 0 0 0) := by
    norm_num [windowFilter, dfZeroStart, row]
  have h := (analyze_changes_amended "XUSDT" 1 1 dfZeroStart).2 cZeroStart
    (row 0 0 0 0) hc hh
  exact ⟨h.1 rfl, h.2 rfl 0⟩

/-- C5.  The per-series compaction of cleanup_old_data is a no-op on a
series of at most 1000 rows; on a longer series it keeps exactly the
most recent 1000 rows (a suffix of the input) and reports the removed
count; in particular 1500 rows become the last 1000 with 500 removed,
and 800 rows are untouched. -/
theorem compact_spec (df : List Snapshot) :
    (df.length ≤ 1000 → compact df = (df, 0)) ∧
    (1000 < df.length →
      (compact df).1 = tailN 1000 df ∧ (compact df).1.length = 1000 ∧
      (compact df).2 = df.length - 1000 ∧ List.IsSuffix (compact df).1 df) ∧
    (df.length = 1500 → compact df = (df.drop 500, 500)) ∧
    (df.length = 800 → compact df = (df, 0)) := by
  refine ⟨fun h => by simp [compact, h], fun h => ?_, fun h => ?_,
    fun h => by simp [compact, h]⟩
  · have h1000 : ¬ df.length ≤ 1000 := not_le.mpr h
    refine ⟨by simp [compact, h1000], ?_, ?_, ?_⟩
    · simp only [compact, h1000, if_false, tailN, List.length_drop]
      omega
    · simp only [compact, h1000, if_false, tailN, List.length_drop]
      omega
    · simp only [compact, h1000, if_false, tailN]
      exact List.drop_suffix _ _
  · have h1000 : ¬ df.length ≤ 1000 := by omega
    simp only [compact, h1000, if_false, tailN, List.length_drop, h]
    norm_num

/-- C5 witness: a concrete 1500-row series is compacted to its last 1000
rows with 500 removed; a concrete 800-row series is untouched. -/
theorem compact_spec_witness :
    compact (List.replicate 1500 (oiRow 0)) =
      (List.replicate 1000 (oiRow 0), 500) ∧
    compact (List.replicate 800 (oiRow 0)) =
      (List.replicate 800 (oiRow 0), 0) := by
  constructor
  · have h := (compact_spec (List.replicate 1500 (oiRow 0))).2.2.1
      (by rw [List.length_replicate])
    rw [h, List.drop_replicate]
  · exact (compact_spec _).2.2.2 (by rw [List.length_replicate])

/-- C7 counterexample: even with valid credentials, the startup pass of
AutoMonitorSystem.run does not run the registered status-report job
immediately (only collection_job is run before the loop). -/
theorem cold_start_counterexample :
    JobKind.statusReport ∈ registered_jobs ∧
    validate_telegram_config ⟨"token", "chat"⟩ = true ∧
    StartupAction.runJob .statusReport ∉ run_startup ⟨"token", "chat"⟩ := by
  refine ⟨by simp [registered_jobs], by simp [validate_telegram_config], ?_⟩
  simp [run_startup, validate_telegram_config]

/-- C7 amended: with valid credentials the startup pass registers both
jobs and runs the collection job (with its inline monitoring) once
immediately, but does not run the status-report job, which first fires
on its periodic cadence. -/
theorem cold_start_amended (cfg : TelegramConfig)
    (h : validate_telegram_config cfg = true) :
    run_startup cfg =
      [.startupNotification, .register .collection, .register .statusReport,
        .runJob .collection] ∧
    StartupAction.runJob .collection ∈ run_startup cfg ∧
    StartupAction.runJob .statusReport ∉ run_startup cfg := by
  refine ⟨by simp [run_startup, h], ?_, ?_⟩ <;> simp [run_startup, h]

/-- C7 witness: the amended startup trace at concrete credentials. -/
theorem cold_start_amended_witness :
    run_startup ⟨"token", "chat"⟩ =
      [.startupNotification, .register .collection, .register .statusReport,
        .runJob .collection] :=
  (cold_start_amended ⟨"token", "chat"⟩ (by simp [validate_telegram_config])).1

/-- C8 counterexample: with a missing bot token, AutoMonitorSystem.run
returns before doing anything: no collection job is run, so data
collection does not proceed. -/
theorem missing_credentials_counterexample :
    validate_telegram_config ⟨"", "chat"⟩ = false ∧
    run_startup ⟨"", "chat"⟩ = [] ∧
    StartupAction.runJob .collection ∉ run_startup ⟨"", "chat"⟩ := by
  refine ⟨by simp [validate_telegram_config], ?_, ?_⟩ <;>
    simp [run_startup, validate_telegram_config]

/-- C8 amended: missing credentials block alert delivery (the
TelegramBot constructor of telegram_bot.py fails) and also block data
collection: AutoMonitorSystem.run exits at once, running and
registering nothing. -/
theorem missing_credentials_amended (cfg : TelegramConfig)
    (h : validate_telegram_config cfg = false) :
    run_startup cfg = [] ∧
    StartupAction.runJob .collection ∉ run_startup cfg ∧
    telegram_bot_init none none none none =
      .error "TELEGRAM_BOT_TOKEN and TELEGRAM_CHAT_ID required" := by
  refine ⟨by simp [run_startup, h], by simp [run_startup, h], rfl⟩

/-- C8 witness: the amended behaviour at concrete empty credentials. -/
theorem missing_credentials_amended_witness :
    run_startup ⟨"", ""⟩ = [] :=
  (missing_credentials_amended ⟨"", ""⟩ (by simp [validate_telegram_config])).1

/-- C9 counterexample: a premiumIndex response omitting markPrice and
one reporting markPrice as 0 produce identical snapshot dicts, so the
absence is not distinguishable internally. -/
theorem snapshot_omitted_field_counterexample :
    get_data_snapshot "BTCUSDT" 0 (some ⟨none, some 5⟩) none none =
      get_data_snapshot "BTCUSDT" 0 (some ⟨some 0, some 5⟩) none none := rfl

/-- C9 amended: every omitted numeric field defaults to zero and is NOT
distinguishable from a true zero reading: omitting mark price, funding
rate or open interest yields exactly the snapshot obtained by reporting
the field as zero, and a failed fetch equals an all-zero response. -/
theorem snapshot_omitted_field_amended (symbol : String) (now : ℚ)
    (ip : Option ℚ) (fd : Option FundingResp) (od : Option OpenInterestResp)
    (ft : Option ℤ) (md : Option MarkPriceResp) :
    (get_data_snapshot symbol now (some ⟨none, ip⟩) fd od =
      get_data_snapshot symbol now (some ⟨some 0, ip⟩) fd od) ∧
    (get_data_snapshot symbol now md (some ⟨none, ft⟩) od =
      get_data_snapshot symbol now md (some ⟨some 0, ft⟩) od) ∧
    (get_data_snapshot symbol now md fd (some ⟨none⟩) =
      get_data_snapshot symbol now md fd (some ⟨some 0⟩)) ∧
    (get_data_snapshot symbol now none fd od =
      get_data_snapshot symbol now (some ⟨some 0, some 0⟩) fd od) :=
  ⟨rfl, rfl, rfl, rfl⟩

/-- C10.  After every monitoring run the alerts-found and alerts-sent
counters both grow by the number of alerts of that run, whatever the
per-alert delivery results were; and along any sequence of system
events from process start the two counters are always equal. -/
theorem alerts_counters_invariant :
    (∀ s alerts,
      (monitoring_job_step s (some alerts)).alerts_found_total =
        s.alerts_found_total + alerts.length ∧
      (monitoring_job_step s (some alerts)).alerts_sent_total =
        s.alerts_sent_total + alerts.length) ∧
    (∀ evs, (runEvents initialStats evs).alerts_sent_total =
      (runEvents initialStats evs).alerts_found_total) := by
  refine ⟨fun s alerts => ⟨rfl, rfl⟩, ?_⟩
  have key : ∀ (evs : List SystemEvent) (s : MonitorStats),
      s.alerts_sent_total = s.alerts_found_total →
      (evs.foldl applyEvent s).alerts_sent_total =
        (evs.foldl applyEvent s).alerts_found_total := by
    intro evs
    induction evs with
    | nil => exact fun s h => h
    | cons e rest ih =>
      intro s h
      rw [List.foldl_cons]
      apply ih
      cases e with
      | monitoring o =>
        cases o with
        | none => exact h
        | some alerts => simp [applyEvent, monitoring_job_step, h]
      | collection su er => exact h
      | statusReport => exact h
  exact fun evs => key evs initialStats rfl

end BinanceMonitor
